import Mathlib

/-!
Verification development for the oracle-mcp-server repository.

The repository ships the MCP tool layer in `src/main.py`; that file is embedded
here directly. The `DatabaseContext` / schema-manager / cache-store code that
`main.py` imports (`db_context`) is part of the repository but is not present
under `src/`, so those operations are modelled from the specification; each such
definition carries a doc comment beginning `Modelled from the spec:`.

Strings are embedded as `List Char` (`Chars`); the Python `str.upper`,
substring containment, `str.replace` and `str.split()` are embedded as
executable functions on `Chars` below.
-/

namespace OracleMcp

abbrev Chars := List Char

/-- Python `s.upper()` on the character-list embedding of a string. -/
def upChars (s : Chars) : Chars := s.map Char.toUpper

/-- Predicate `isPrefixChars n h` holds when `n` is a leading run of `h` (helper for
substring containment). -/
def isPrefixChars : Chars → Chars → Bool
  | [], _ => true
  | _ :: _, [] => false
  | a :: as, b :: bs => a == b && isPrefixChars as bs

/-- Embedding of the Python `needle in hay` substring test: `needle` occurs contiguously in
`hay`. -/
def containsSub (needle : Chars) : Chars → Bool
  | [] => isPrefixChars needle []
  | c :: rest => isPrefixChars needle (c :: rest) || containsSub needle rest

/-! ## Data model (spec section 3) -/

/-- Modelled from the spec: ColumnInfo — name, position, data type, nullability,
optional default. -/
structure ColumnInfo where
  name : Chars
  position : Nat
  dataType : Chars
  nullable : Bool
  default? : Option Chars
deriving DecidableEq, Repr

/-- Modelled from the spec: the constraint kind discriminant. -/
inductive ConstraintKind where
  | primaryKey
  | foreignKey
  | uniqueKey
  | check
  | notNull
deriving DecidableEq, Repr

/-- Modelled from the spec: ConstraintInfo — name, kind, ordered column list;
FOREIGN_KEY carries a referenced table and columns, CHECK a condition string. -/
structure ConstraintInfo where
  name : Chars
  kind : ConstraintKind
  columns : List Chars
  refTable : Option Chars
  refColumns : List Chars
  condition : Option Chars
deriving DecidableEq, Repr

/-- Modelled from the spec: IndexInfo — name, ordered columns, uniqueness,
storage location, status. -/
structure IndexInfo where
  name : Chars
  columns : List Chars
  uniqueFlag : Bool
  tablespace : Option Chars
  status : Option Chars
deriving DecidableEq, Repr

/-- Modelled from the spec: TableInfo — name, owning schema, ordered columns,
constraints, indexes. Relationships are derived at query time from
FOREIGN_KEY constraints, never stored. -/
structure TableInfo where
  name : Chars
  owner : Chars
  columns : List ColumnInfo
  constraints : List ConstraintInfo
  indexes : List IndexInfo
deriving DecidableEq, Repr

/-- Modelled from the spec: CodeObjectInfo — name, kind, owner, status,
timestamps; source text is never part of this record. -/
structure CodeObjectInfo where
  name : Chars
  objectKind : Chars
  owner : Chars
  status : Chars
  created : Nat
  lastModified : Nat
deriving DecidableEq, Repr

/-- Modelled from the spec: UserTypeInfo — name, category, owner, ordered
attribute list. -/
structure UserTypeInfo where
  name : Chars
  category : Chars
  owner : Chars
  attributes : List (Chars × Chars)
deriving DecidableEq, Repr

/-- Modelled from the spec: SchemaSnapshot — the unit of caching: map of
canonical (upper-case) table name to TableInfo, the always-consistent list of
all table names, object and type maps, build timestamp, target schema, and a
signature identifying the source connection/schema. -/
structure SchemaSnapshot where
  tables : List (Chars × TableInfo)
  allTableNames : List Chars
  objects : List (Chars × CodeObjectInfo)
  typeEntries : List (Chars × UserTypeInfo)
  builtAt : Nat
  targetSchema : Option Chars
  signature : Chars
deriving DecidableEq, Repr

/-! ## Schema Manager lookups (spec section 4.4; `db_context` is not under
`src/`, so these are modelled from the spec) -/

/-- Modelled from the spec: `getSchemaInfo(tableName) -> TableInfo | None`,
a case-insensitive exact match against the current snapshot (lookup keys are
case-normalised to upper case at the boundary). -/
def get_schema_info (snap : SchemaSnapshot) (tableName : Chars) : Option TableInfo :=
  (snap.tables.find? (fun e => decide (e.1 = upChars tableName))).map (fun e => e.2)

/-- Modelled from the spec: `searchTables(term, limit)` — case-insensitive
substring match anywhere in the table name; result order is
insertion/extraction order, truncated to `limit`. -/
def search_tables (snap : SchemaSnapshot) (term : Chars) (limit : Nat) : List Chars :=
  (snap.allTableNames.filter (fun n => containsSub (upChars term) (upChars n))).take limit

/-- Modelled from the spec: dependent objects are derived by scanning
FOREIGN_KEY constraints across all TableInfo records for the given name as
referenced target. -/
def tableDependsOn (target : Chars) (t : TableInfo) : Bool :=
  t.constraints.any (fun c =>
    decide (c.kind = ConstraintKind.foreignKey) && decide (c.refTable = some target))

/-- A dependent-object record: name and object type. -/
structure DependentObj where
  name : Chars
  objType : Chars
deriving DecidableEq, Repr

/-- Modelled from the spec: `getDependentObjects(name) -> list`, computed by a
pure scan over the FOREIGN_KEY constraints of the snapshot. -/
def get_dependent_objects (snap : SchemaSnapshot) (objectName : Chars) : List DependentObj :=
  (snap.tables.filter (fun e => tableDependsOn objectName e.2)).map
    (fun e => ⟨e.2.name, ("TABLE").data⟩)

/-- The tables referenced by the FOREIGN_KEY constraints of a given table. -/
def fkTargets (t : TableInfo) : List Chars :=
  t.constraints.filterMap
    (fun c => if c.kind = ConstraintKind.foreignKey then c.refTable else none)

/-- Snapshot well-formedness used by the lookup claims: table keys are distinct
and every FOREIGN_KEY constraint references a table present in the snapshot. -/
def WellFormedSnap (snap : SchemaSnapshot) : Prop :=
  (snap.tables.map Prod.fst).Nodup ∧
  ∀ e ∈ snap.tables, ∀ r ∈ fkTargets e.2, r ∈ snap.tables.map Prod.fst

/-! ## Python string splitting used by the search tool (`src/main.py`
lines 143-145) -/

/-- The whitespace class of Python `str.split()` (ASCII range). -/
def pyIsSpace (c : Char) : Bool :=
  c == ' ' || c == '\t' || c == '\n' || c == '\r' || c == '\x0b' || c == '\x0c'

/-- Embedding of `search_term.replace(",", " ")` from `src/main.py` line 144. -/
def replaceCommas (s : Chars) : Chars :=
  s.map (fun c => if c = ',' then ' ' else c)

/-- Split into chunks at separator characters (separators dropped, empty chunks
kept); composing with an empty-chunk filter gives the Python `str.split()`. -/
def splitChunks (p : Char → Bool) : Chars → List Chars
  | [] => [[]]
  | c :: rest =>
    if p c then [] :: splitChunks p rest
    else
      match splitChunks p rest with
      | [] => [[c]]
      | t :: ts => (c :: t) :: ts

/-- Python `s.split()` with no argument: maximal non-whitespace runs. -/
def pySplit (s : Chars) : List Chars :=
  (splitChunks pyIsSpace s).filter (fun t => !t.isEmpty)

/-- Embedding of `src/main.py` lines 144-145: split the raw search term on commas and
whitespace and drop empty strings (the `strip()` is a no-op after `split()`). -/
def splitTerms (s : String) : List Chars :=
  pySplit (replaceCommas s.data)

/-! ## The search tool (`src/main.py` lines 123-182) -/

/-- Embedding of `matching_tables` from `src/main.py` lines 150-156: per-term searches (each
with limit 20) accumulated into a Python `set`; the contents of the set are the
distinct elements of all insertions. -/
def unionMatches (snap : SchemaSnapshot) (terms : List Chars) : List Chars :=
  (List.flatten (terms.map (fun t => search_tables snap t 20))).dedup

/-- An admissible iteration order for `list(pythonSet)`: any function that
returns a permutation of the contents of the set (CPython iterates a string set in
hash order, which is unspecified and seed-dependent). -/
def SetOrder (f : List Chars → List Chars) : Prop :=
  ∀ l : List Chars, List.Perm (f l) l

/-- Outcome of the `search_tables_schema` tool. -/
inductive SearchOutcome where
  | noValidTerms (msg : String)
  | noMatches (terms : List Chars)
  | results (totalMatches : Nat) (tables : List Chars)
deriving DecidableEq, Repr

/-- A run of the `search_tables_schema` tool: the terms it searched the
snapshot for, and its outcome. -/
structure SearchRun where
  searchedTerms : List Chars
  outcome : SearchOutcome
deriving DecidableEq, Repr

/-- Embedding of `src/main.py` lines 124-182 (`search_tables_schema`): split the input into
terms; with no terms return the fixed message; otherwise search the snapshot
for every term, union the matches through a `set` (iteration order
`setOrder`), and truncate the combined list to 20. -/
def search_tables_schema (snap : SchemaSnapshot) (searchTerm : String)
    (setOrder : List Chars → List Chars) : SearchRun :=
  let terms := splitTerms searchTerm
  if terms.isEmpty then
    ⟨[], SearchOutcome.noValidTerms "No valid search terms provided"⟩
  else
    let setList := setOrder (unionMatches snap terms)
    if setList.isEmpty then ⟨terms, SearchOutcome.noMatches terms⟩
    else ⟨terms, SearchOutcome.results setList.length (setList.take 20)⟩

/-- The combined table list the claim about insertion order expects: the
table list of the snapshot filtered to the names matching some term, truncated
to 20. -/
def insertionOrderResult (snap : SchemaSnapshot) (searchTerm : String) : List Chars :=
  (snap.allTableNames.filter
    (fun n => (splitTerms searchTerm).any (fun t => containsSub (upChars t) (upChars n)))).take 20

/-! ## The single-table tool (`src/main.py` lines 55-76) -/

/-- Reply of the `get_table_schema` tool. -/
inductive TableSchemaReply where
  | notFound (tableName : String)
  | schemaText (info : TableInfo)
deriving DecidableEq, Repr

/-- Embedding of `src/main.py` lines 56-76 (`get_table_schema`): look the name up in the
snapshot; report not-found as a message, else format the record. -/
def get_table_schema (snap : SchemaSnapshot) (tableName : String) : TableSchemaReply :=
  match get_schema_info snap tableName.data with
  | none => TableSchemaReply.notFound tableName
  | some info => TableSchemaReply.schemaText info

/-- Embedding of `src/main.py` line 429: the dependents tool upper-cases the name before
asking the context. -/
def get_dependent_objects_tool (snap : SchemaSnapshot) (objectName : String) :
    List DependentObj :=
  get_dependent_objects snap (upChars objectName.data)

/-! ## Rebuild as a step machine (spec sections 3 and 5; the Schema Manager is
not under `src/`) -/

/-- The snapshot fields a rebuild does not construct table-by-table. -/
structure SnapMeta where
  objects : List (Chars × CodeObjectInfo)
  typeEntries : List (Chars × UserTypeInfo)
  builtAt : Nat
  targetSchema : Option Chars
  signature : Chars
deriving DecidableEq, Repr

/-- Assemble a snapshot from an extracted table list and the remaining fields;
the name list is rebuilt together with the map, as the spec requires. -/
def mkSnapshot (tables : List (Chars × TableInfo)) (m : SnapMeta) : SchemaSnapshot :=
  { tables := tables
    allTableNames := tables.map Prod.fst
    objects := m.objects
    typeEntries := m.typeEntries
    builtAt := m.builtAt
    targetSchema := m.targetSchema
    signature := m.signature }

/-- Modelled from the spec: shared state during a rebuild. `shared` is the
single snapshot reference readers dereference; `builder` is the private
partial table list of the rebuild, invisible to readers. -/
structure RebuildState where
  shared : Option SchemaSnapshot
  builder : List (Chars × TableInfo)
deriving DecidableEq, Repr

/-- Modelled from the spec: one micro-step of a rebuild — either extract one
more table into the private builder, or install the fully built snapshot with
a single atomic swap of the shared reference. -/
inductive RebuildStep where
  | addTable (e : Chars × TableInfo)
  | install (m : SnapMeta)
deriving DecidableEq, Repr

/-- Execute one rebuild micro-step. -/
def applyStep (st : RebuildState) : RebuildStep → RebuildState
  | RebuildStep.addTable e => { st with builder := st.builder ++ [e] }
  | RebuildStep.install m => ⟨some (mkSnapshot st.builder m), []⟩

/-- Modelled from the spec: a rebuild extracts every table into private storage
and only then installs, in one final step. -/
def rebuildSteps (ts : List (Chars × TableInfo)) (m : SnapMeta) : List RebuildStep :=
  (ts.map RebuildStep.addTable) ++ [RebuildStep.install m]

/-- All states a run of the step machine passes through, initial state
included. -/
def traceStates (st : RebuildState) : List RebuildStep → List RebuildState
  | [] => [st]
  | s :: rest => st :: traceStates (applyStep st s) rest

/-- What a concurrent reader observes in a given state: the shared snapshot
reference. -/
def readSnapshot (st : RebuildState) : Option SchemaSnapshot := st.shared

/-- What a concurrent `getSchemaInfo(name)` observes in a given state. -/
def readTable (st : RebuildState) (name : Chars) : Option TableInfo :=
  (readSnapshot st).bind (fun s => get_schema_info s name)

/-! ## Rebuild failure handling (`src/main.py` lines 78-93; `rebuild_cache`
itself is not under `src/`) -/

/-- Mutable holder of the installed snapshot inside the Schema Manager. -/
structure ManagerState where
  cache : Option SchemaSnapshot
deriving DecidableEq, Repr

/-- Modelled from the spec: `rebuildCache()` forces extraction; a rebuild
failure leaves the previous snapshot intact and reports the failure
(`ExtractionError | CacheIOError`) to the caller. The result of the extraction
attempt is passed in as data. -/
def rebuild_cache (st : ManagerState) (extraction : Except Chars SchemaSnapshot) :
    ManagerState × Except Chars Unit :=
  match extraction with
  | Except.error e => (st, Except.error e)
  | Except.ok snap => (⟨some snap⟩, Except.ok ())

/-- Embedding of `src/main.py` lines 79-93 (`rebuild_schema_cache`): run the
rebuild of the context; on success report the indexed table count, on failure report the
error message. -/
def rebuild_schema_cache (st : ManagerState) (extraction : Except Chars SchemaSnapshot) :
    ManagerState × Chars :=
  match rebuild_cache st extraction with
  | (st2, Except.ok ()) =>
    let n := match st2.cache with
      | some s => s.allTableNames.length
      | none => 0
    (st2, ("Schema cache rebuilt successfully. Indexed ").data ++ (toString n).data
      ++ (" tables.").data)
  | (st2, Except.error e) =>
    (st2, ("Failed to rebuild schema cache: ").data ++ e)

/-! ## Cache Store (spec section 4.3; not under `src/`) -/

/-- Modelled from the spec: the state of the persisted cache copy as `load`
finds it — absent, unreadable, structurally invalid, or a stored snapshot with
its signature. -/
inductive PersistedCache where
  | absent
  | unreadable
  | structurallyInvalid
  | stored (sig : Chars) (snap : SchemaSnapshot)
deriving DecidableEq, Repr

/-- The signature identifying the source connection/schema a snapshot was
built from. -/
def snapSignature (snap : SchemaSnapshot) : Chars := snap.signature

/-- Modelled from the spec: `save(snapshot)` persists the serialized snapshot
together with its signature. -/
def cacheSave (snap : SchemaSnapshot) : PersistedCache :=
  PersistedCache.stored (snapSignature snap) snap

/-- Modelled from the spec: `load(expectedSignature)` returns None when the
persisted copy is absent, unreadable, structurally invalid, or its stored
signature differs from the expected one; otherwise it returns the stored
snapshot with a freshly regenerated load timestamp `now`. -/
def cacheLoad (expectedSignature : Chars) (file : PersistedCache) (now : Nat) :
    Option SchemaSnapshot :=
  match file with
  | PersistedCache.absent => none
  | PersistedCache.unreadable => none
  | PersistedCache.structurallyInvalid => none
  | PersistedCache.stored sig snap =>
    if sig = expectedSignature then some { snap with builtAt := now } else none

/-- Snapshot equality in every field except the (re)build timestamp. -/
def eqExceptTimestamp (a b : SchemaSnapshot) : Prop :=
  a.tables = b.tables ∧ a.allTableNames = b.allTableNames ∧ a.objects = b.objects ∧
  a.typeEntries = b.typeEntries ∧ a.targetSchema = b.targetSchema ∧
  a.signature = b.signature

/-! ## Query Executor (spec section 4.5; not under `src/`) -/

/-- Status field of a query result. -/
inductive QStatus where
  | ok
  | error
deriving DecidableEq, Repr

/-- The structured result of `executeQuery`: `{status, columns, rows, rowCount}`
on success, `{status: error, error}` on failure; null cells are an explicit
marker (`none`). -/
structure QueryResult where
  status : QStatus
  columns : List Chars
  rows : List (List (Option Chars))
  rowCount : Nat
  errMsg : Option Chars
deriving DecidableEq, Repr

/-- What the underlying connection does with one SQL text: either produces
rows or raises (syntax error, permission error, timeout). -/
inductive DriverOutcome where
  | rowsOut (columns : List Chars) (rows : List (List (Option Chars)))
  | raised (msg : Chars)
deriving DecidableEq, Repr

/-- Modelled from the spec: `executeQuery(sql)` runs the statement on the live
connection and captures any execution failure as a structured error result —
it never raises past this boundary, so it is a total function into
`QueryResult`. An empty driver message falls back to the report `Unknown
error` observed at the tool layer (`src/main.py` line 543). -/
def execute_query (driver : Chars → DriverOutcome) (sql : Chars) : QueryResult :=
  match driver sql with
  | DriverOutcome.rowsOut cols rows =>
    ⟨QStatus.ok, cols, rows, rows.length, none⟩
  | DriverOutcome.raised msg =>
    ⟨QStatus.error, [], [], 0,
      some (if msg.isEmpty then ("Unknown error").data else msg)⟩

/-! ## Concrete sample data used by witnesses and the counterexample -/

/-- A minimal table record for a given name. -/
def demoTable (name : Chars) : TableInfo :=
  { name := name
    owner := ("HR").data
    columns := [⟨("ID").data, 1, ("NUMBER").data, false, none⟩]
    constraints := []
    indexes := [] }

/-- The ORDERS table: carries a FOREIGN_KEY constraint referencing AA. -/
def demoOrders : TableInfo :=
  { name := ("ORDERS").data
    owner := ("HR").data
    columns := [⟨("ID").data, 1, ("NUMBER").data, false, none⟩]
    constraints :=
      [⟨("FK_ORDERS_AA").data, ConstraintKind.foreignKey, [("AA_ID").data],
        some (("AA").data), [("ID").data], none⟩]
    indexes := [] }

/-- A small well-formed snapshot with tables AA, AB and ORDERS. -/
def demoSnap : SchemaSnapshot :=
  { tables :=
      [(("AA").data, demoTable (("AA").data)),
       (("AB").data, demoTable (("AB").data)),
       (("ORDERS").data, demoOrders)]
    allTableNames := [("AA").data, ("AB").data, ("ORDERS").data]
    objects := []
    typeEntries := []
    builtAt := 0
    targetSchema := some (("HR").data)
    signature := ("oracle://demo@HR").data }

/-- Metadata for a freshly extracted demo snapshot. -/
def demoMeta : SnapMeta :=
  ⟨[], [], 7, some (("HR").data), ("oracle://demo@HR").data⟩

/-- A driver that raises with an empty message on every statement. -/
def demoDriver : Chars → DriverOutcome := fun _ => DriverOutcome.raised []

/-- The claim that the multi-term union of the tool layer preserves the
snapshot insertion/extraction order for every admissible set-iteration order. -/
def orderPreservedClaim : Prop :=
  ∀ (snap : SchemaSnapshot) (s : String) (f : List Chars → List Chars),
    SetOrder f →
    ∀ n ts, (search_tables_schema snap s f).outcome = SearchOutcome.results n ts →
      ts = insertionOrderResult snap s

/-! # Helper lemmas -/

/-- In an association list with distinct keys, `find?` on a key held by a
member entry returns exactly that entry. -/
theorem find_key_of_mem {β : Type} (l : List (Chars × β)) (k : Chars) (i : β)
    (hnd : (l.map Prod.fst).Nodup) (hm : (k, i) ∈ l) :
    l.find? (fun e => decide (e.1 = k)) = some (k, i) := by
  induction l with
  | nil => simp at hm
  | cons e rest ih =>
    rw [List.map_cons, List.nodup_cons] at hnd
    rcases List.mem_cons.mp hm with h | h
    · rw [List.find?_cons, ← h]
      simp
    · have hk : e.1 ≠ k := by
        intro hek
        exact hnd.1 (hek ▸ List.mem_map.mpr ⟨(k, i), h, rfl⟩)
      rw [List.find?_cons]
      simp only [hk, decide_eq_true_eq, if_neg, decide_False]
      exact ih hnd.2 h

/-- During a rebuild run started with shared snapshot `sh` and builder `b`,
every reachable state exposes either `sh` or the fully assembled final
snapshot. -/
theorem trace_shared_old_or_new (m : SnapMeta) (ts : List (Chars × TableInfo)) :
    ∀ (sh : Option SchemaSnapshot) (b : List (Chars × TableInfo)),
      ∀ st ∈ traceStates ⟨sh, b⟩ (rebuildSteps ts m),
        st.shared = sh ∨ st.shared = some (mkSnapshot (b ++ ts) m) := by
  induction ts with
  | nil =>
    intro sh b st hst
    simp only [rebuildSteps, List.map_nil, List.nil_append, traceStates,
      List.mem_cons] at hst
    rcases hst with h | h | h
    · subst h; left; rfl
    · subst h; right; simp [applyStep, List.append_nil]
    · exact absurd h (List.not_mem_nil st)
  | cons t rest ih =>
    intro sh b st hst
    simp only [rebuildSteps, List.map_cons, List.cons_append, traceStates,
      List.mem_cons] at hst
    rcases hst with h | h
    · subst h; left; rfl
    · have h2 : st ∈ traceStates ⟨sh, b ++ [t]⟩ (rebuildSteps rest m) := by
        simpa [applyStep, rebuildSteps] using h
      rcases ih sh (b ++ [t]) st h2 with h3 | h3
      · left; exact h3
      · right; rw [h3]; simp

/-- If every character of a list satisfies the separator predicate, every
chunk produced by `splitChunks` is empty. -/
theorem splitChunks_all_empty (p : Char → Bool) (l : Chars)
    (h : ∀ c ∈ l, p c = true) :
    ∀ t ∈ splitChunks p l, t = [] := by
  induction l with
  | nil =>
    intro t ht
    simp only [splitChunks, List.mem_singleton] at ht
    exact ht
  | cons c rest ih =>
    intro t ht
    have hc : p c = true := h c (List.mem_cons_self c rest)
    simp only [splitChunks, hc, if_true, List.mem_cons] at ht
    rcases ht with h1 | h1
    · exact h1
    · exact ih (fun d hd => h d (List.mem_cons_of_mem c hd)) t h1

/-- Python `split()` of an all-whitespace string is empty. -/
theorem pySplit_eq_nil (l : Chars) (h : ∀ c ∈ l, pyIsSpace c = true) :
    pySplit l = [] := by
  unfold pySplit
  rw [List.filter_eq_nil_iff.mpr]
  intro t ht
  have := splitChunks_all_empty pyIsSpace l h t ht
  subst this
  simp

/-! # Claim theorems -/

/-- C1: during any rebuild, every state a concurrent reader can observe
exposes either the fully-old snapshot or the fully-new one — never the
partial builder table list — and hence every per-entity lookup answers
wholly from the old snapshot or wholly from the new. -/
theorem rebuild_atomic_snapshot (old : Option SchemaSnapshot)
    (ts : List (Chars × TableInfo)) (m : SnapMeta) (st : RebuildState)
    (hst : st ∈ traceStates ⟨old, []⟩ (rebuildSteps ts m)) :
    (readSnapshot st = old ∨ readSnapshot st = some (mkSnapshot ts m)) ∧
    ∀ name : Chars,
      readTable st name = old.bind (fun s => get_schema_info s name) ∨
      readTable st name = get_schema_info (mkSnapshot ts m) name := by
  have h := trace_shared_old_or_new m ts old [] st hst
  rw [List.nil_append] at h
  refine ⟨h, fun name => ?_⟩
  rcases h with h | h
  · left; simp [readTable, readSnapshot, h]
  · right; simp [readTable, readSnapshot, h]

/-- C1 witness: a concrete rebuild over the demo snapshot, evaluated at the
initial state of the trace. -/
theorem rebuild_atomic_snapshot_witness :
    (readSnapshot ⟨some demoSnap, []⟩ = some demoSnap ∨
      readSnapshot ⟨some demoSnap, []⟩ =
        some (mkSnapshot [(("AA").data, demoTable (("AA").data))] demoMeta)) ∧
    ∀ name : Chars,
      readTable ⟨some demoSnap, []⟩ name =
        (some demoSnap).bind (fun s => get_schema_info s name) ∨
      readTable ⟨some demoSnap, []⟩ name =
        get_schema_info (mkSnapshot [(("AA").data, demoTable (("AA").data))] demoMeta) name :=
  rebuild_atomic_snapshot (some demoSnap)
    [(("AA").data, demoTable (("AA").data))] demoMeta ⟨some demoSnap, []⟩
    (by simp [traceStates, rebuildSteps])

/-- C2: when the driver raises on a statement (invalid SQL, permission error,
timeout), `executeQuery` returns a structured result with error status and a
non-empty message; being a total function into `QueryResult`, it never lets
the failure propagate past the boundary. -/
theorem execute_query_structured_error (driver : Chars → DriverOutcome)
    (sql msg : Chars) (h : driver sql = DriverOutcome.raised msg) :
    (execute_query driver sql).status = QStatus.error ∧
    ∃ e, (execute_query driver sql).errMsg = some e ∧ e ≠ [] := by
  unfold execute_query
  rw [h]
  refine ⟨rfl, ?_⟩
  by_cases hm : msg.isEmpty
  · exact ⟨("Unknown error").data, by simp [hm], by decide⟩
  · refine ⟨msg, by simp [hm], fun hnil => ?_⟩
    subst hnil
    simp at hm

/-- C2 witness: a driver raising with an empty message on the statement
`not valid sql` still yields an error status and a non-empty message. -/
theorem execute_query_structured_error_witness :
    (execute_query demoDriver ("not valid sql").data).status = QStatus.error ∧
    ∃ e, (execute_query demoDriver ("not valid sql").data).errMsg = some e ∧ e ≠ [] :=
  execute_query_structured_error demoDriver ("not valid sql").data [] rfl

/-- C3: `searchTables(term, limit=20)` returns at most 20 names, and every
returned name is a snapshot table name containing the term as a
case-insensitive substring. -/
theorem search_tables_limit_and_subset (snap : SchemaSnapshot) (term : Chars) :
    (search_tables snap term 20).length ≤ 20 ∧
    ∀ n ∈ search_tables snap term 20,
      n ∈ snap.allTableNames ∧ containsSub (upChars term) (upChars n) = true := by
  constructor
  · exact List.length_take_le 20 _
  · intro n hn
    have h1 := List.take_subset 20 _ hn
    exact List.mem_filter.mp h1

/-- C3 witness: the demo snapshot searched for `a`. -/
theorem search_tables_limit_and_subset_witness :
    (search_tables demoSnap [Char.ofNat 97] 20).length ≤ 20 ∧
    ∀ n ∈ search_tables demoSnap [Char.ofNat 97] 20,
      n ∈ demoSnap.allTableNames ∧
        containsSub (upChars [Char.ofNat 97]) (upChars n) = true :=
  search_tables_limit_and_subset demoSnap [Char.ofNat 97]

/-- C4: the tool layer unions the per-term match lists through a set, removing
duplicates before truncating to 20, so the combined result never repeats a
table name, and every entry comes from some per-term search. -/
theorem search_union_dedup_before_limit (snap : SchemaSnapshot) (s : String)
    (f : List Chars → List Chars) (hf : SetOrder f) (n : Nat) (ts : List Chars)
    (hout : (search_tables_schema snap s f).outcome = SearchOutcome.results n ts) :
    ts.Nodup ∧
    ∀ x ∈ ts, x ∈ List.flatten ((splitTerms s).map (fun t => search_tables snap t 20)) := by
  have hperm := hf (unionMatches snap (splitTerms s))
  simp only [search_tables_schema] at hout
  split at hout
  · simp at hout
  · split at hout
    · simp at hout
    · simp only [SearchOutcome.results.injEq] at hout
      obtain ⟨-, hts⟩ := hout
      subst hts
      have hnd : (f (unionMatches snap (splitTerms s))).Nodup :=
        hperm.nodup_iff.mpr (List.nodup_dedup _)
      constructor
      · exact hnd.sublist (List.take_sublist 20 _)
      · intro x hx
        have h1 : x ∈ f (unionMatches snap (splitTerms s)) :=
          List.take_subset 20 _ hx
        have h2 : x ∈ unionMatches snap (splitTerms s) := hperm.mem_iff.mp h1
        exact List.mem_dedup.mp h2

/-- C4 witness: the demo snapshot searched for `A` under the identity set
order yields a duplicate-free combined result drawn from the per-term
matches. -/
theorem search_union_dedup_before_limit_witness :
    ([("AA").data, ("AB").data] : List Chars).Nodup ∧
    ∀ x ∈ ([("AA").data, ("AB").data] : List Chars),
      x ∈ List.flatten ((splitTerms "A").map (fun t => search_tables demoSnap t 20)) :=
  search_union_dedup_before_limit demoSnap "A" id (fun l => List.Perm.refl l)
    2 [("AA").data, ("AB").data] (by decide)

/-- C5 counterexample: with terms `A` over tables AA, AB and the admissible
set-iteration order `reverse`, the tool returns `[AB, AA]`, not the
insertion/extraction order `[AA, AB]` — the set-based union does not preserve
snapshot order. -/
theorem search_union_order_not_preserved : ¬ orderPreservedClaim := by
  intro h
  have hrev : SetOrder List.reverse := fun l => l.reverse_perm
  have hc := h demoSnap "A" List.reverse hrev 2 [("AB").data, ("AA").data] (by decide)
  have hne : ([("AB").data, ("AA").data] : List Chars) ≠ insertionOrderResult demoSnap "A" := by
    decide
  exact hne hc

/-- C5 amended: each single-term `searchTables` result is an order-preserving
sublist of the snapshot table list truncated to the limit, but the multi-term
union of the tool layer passes through an unordered set, so the combined
result is only guaranteed to be a 20-element truncation of some permutation of
the deduplicated union. -/
theorem search_order_single_term_only (snap : SchemaSnapshot) (s : String)
    (f : List Chars → List Chars) (hf : SetOrder f) :
    (∀ t lim, List.Sublist (search_tables snap t lim) snap.allTableNames) ∧
    ∀ n ts, (search_tables_schema snap s f).outcome = SearchOutcome.results n ts →
      ∃ l, List.Perm l (unionMatches snap (splitTerms s)) ∧ ts = l.take 20 := by
  constructor
  · intro t lim
    exact (List.take_sublist _ _).trans (List.filter_sublist _)
  · intro n ts hout
    simp only [search_tables_schema] at hout
    split at hout
    · simp at hout
    · split at hout
      · simp at hout
      · simp only [SearchOutcome.results.injEq] at hout
        exact ⟨f (unionMatches snap (splitTerms s)), hf _, hout.2.symm⟩

/-- C5 amended witness: the property evaluated on the demo snapshot with the
reversed set order. -/
theorem search_order_single_term_only_witness :
    (∀ t lim, List.Sublist (search_tables demoSnap t lim) demoSnap.allTableNames) ∧
    ∀ n ts,
      (search_tables_schema demoSnap "A" List.reverse).outcome =
        SearchOutcome.results n ts →
      ∃ l, List.Perm l (unionMatches demoSnap (splitTerms "A")) ∧ ts = l.take 20 :=
  search_order_single_term_only demoSnap "A" List.reverse (fun l => l.reverse_perm)

/-- C6: lookup is case-insensitive exact match — any casing variant of a
canonical key of a table returns the identical TableInfo record. -/
theorem get_schema_info_case_insensitive (snap : SchemaSnapshot) (k : Chars)
    (info : TableInfo) (v1 v2 : Chars)
    (hnd : (snap.tables.map Prod.fst).Nodup)
    (hmem : (k, info) ∈ snap.tables)
    (h1 : upChars v1 = k) (h2 : upChars v2 = k) :
    get_schema_info snap v1 = some info ∧
    get_schema_info snap v2 = get_schema_info snap v1 := by
  have e1 : get_schema_info snap v1 = some info := by
    unfold get_schema_info
    rw [h1, find_key_of_mem snap.tables k info hnd hmem]
    rfl
  have e2 : get_schema_info snap v2 = some info := by
    unfold get_schema_info
    rw [h2, find_key_of_mem snap.tables k info hnd hmem]
    rfl
  exact ⟨e1, e2.trans e1.symm⟩

/-- C6 witness: the casing variants `aa` and `aA` of the demo table AA return
the identical record. -/
theorem get_schema_info_case_insensitive_witness :
    get_schema_info demoSnap [Char.ofNat 97, Char.ofNat 97] = some (demoTable (("AA").data)) ∧
    get_schema_info demoSnap [Char.ofNat 97, Char.ofNat 65] =
      get_schema_info demoSnap [Char.ofNat 97, Char.ofNat 97] :=
  get_schema_info_case_insensitive demoSnap (("AA").data) (demoTable (("AA").data))
    [Char.ofNat 97, Char.ofNat 97] [Char.ofNat 97, Char.ofNat 65]
    (by decide) (by decide) (by decide) (by decide)

/-- C7: a failed rebuild leaves the previously installed snapshot intact, the
context reports the error to its caller, and the tool surfaces it as a
failure message rather than dropping it. -/
theorem rebuild_failure_preserves_snapshot (st : ManagerState) (e : Chars) :
    (rebuild_cache st (Except.error e)).1 = st ∧
    (rebuild_cache st (Except.error e)).2 = Except.error e ∧
    (rebuild_schema_cache st (Except.error e)).1 = st ∧
    (rebuild_schema_cache st (Except.error e)).2 =
      ("Failed to rebuild schema cache: ").data ++ e :=
  ⟨rfl, rfl, rfl, rfl⟩

/-- C8: saving a snapshot and loading it back under its own signature returns
a snapshot equal in every field except the regenerated timestamp, and `load`
returns None for an absent, unreadable, or structurally invalid copy, or on a
signature mismatch. -/
theorem cache_round_trip (S : SchemaSnapshot) (now : Nat) :
    (∃ T, cacheLoad (snapSignature S) (cacheSave S) now = some T ∧
      eqExceptTimestamp S T) ∧
    (∀ sig, cacheLoad sig PersistedCache.absent now = none) ∧
    (∀ sig, cacheLoad sig PersistedCache.unreadable now = none) ∧
    (∀ sig, cacheLoad sig PersistedCache.structurallyInvalid now = none) ∧
    (∀ sig expected T, sig ≠ expected →
      cacheLoad expected (PersistedCache.stored sig T) now = none) := by
  refine ⟨⟨{ S with builtAt := now }, ?_, rfl, rfl, rfl, rfl, rfl, rfl⟩,
    fun _ => rfl, fun _ => rfl, fun _ => rfl, fun sig expected T hne => ?_⟩
  · simp [cacheLoad, cacheSave, snapSignature]
  · simp [cacheLoad, hne]

/-- C8 witness: the round trip evaluated on the demo snapshot, plus a
mismatched-signature load returning None. -/
theorem cache_round_trip_witness :
    (∃ T, cacheLoad (snapSignature demoSnap) (cacheSave demoSnap) 5 = some T ∧
      eqExceptTimestamp demoSnap T) ∧
    cacheLoad (("x").data) (PersistedCache.stored (("y").data) demoSnap) 5 = none :=
  ⟨(cache_round_trip demoSnap 5).1,
    (cache_round_trip demoSnap 5).2.2.2.2 (("y").data) (("x").data) demoSnap (by decide)⟩

/-- C9: a name absent from the snapshot is reported as a value, never a
thrown failure — `getSchemaInfo` returns None, the tool layer answers with a
not-found reply, and `getDependentObjects` returns the empty list. -/
theorem not_found_as_value (snap : SchemaSnapshot) (name : Chars)
    (hwf : WellFormedSnap snap)
    (habs : upChars name ∉ snap.tables.map Prod.fst) :
    get_schema_info snap name = none ∧
    get_table_schema snap (String.mk name) = TableSchemaReply.notFound (String.mk name) ∧
    get_dependent_objects snap (upChars name) = [] := by
  obtain ⟨hnd, hclosed⟩ := hwf
  have h1 : get_schema_info snap name = none := by
    unfold get_schema_info
    rw [List.find?_eq_none.mpr]
    · rfl
    · intro e he
      simp only [decide_eq_true_eq]
      intro hek
      exact habs (hek ▸ List.mem_map.mpr ⟨e, he, rfl⟩)
  refine ⟨h1, ?_, ?_⟩
  · unfold get_table_schema
    rw [show (String.mk name).data = name from rfl, h1]
  · unfold get_dependent_objects
    rw [List.filter_eq_nil_iff.mpr]
    · rfl
    · intro e he
      simp only [tableDependsOn, List.any_eq_true, Bool.and_eq_true,
        decide_eq_true_eq, not_exists, not_and]
      intro c hc hk href
      have htar : upChars name ∈ fkTargets e.2 := by
        unfold fkTargets
        exact List.mem_filterMap.mpr ⟨c, hc, by rw [if_pos hk, href]⟩
      exact habs (hclosed e he (upChars name) htar)

/-- C9 witness: the absent name `zz` on the demo snapshot. -/
theorem not_found_as_value_witness :
    get_schema_info demoSnap [Char.ofNat 122, Char.ofNat 122] = none ∧
    get_table_schema demoSnap (String.mk [Char.ofNat 122, Char.ofNat 122]) =
      TableSchemaReply.notFound (String.mk [Char.ofNat 122, Char.ofNat 122]) ∧
    get_dependent_objects demoSnap (upChars [Char.ofNat 122, Char.ofNat 122]) = [] :=
  not_found_as_value demoSnap [Char.ofNat 122, Char.ofNat 122]
    ⟨by decide, by decide⟩ (by decide)

/-- C10: an input of only whitespace and commas yields no search terms — the
tool answers with the fixed message and searches nothing — while an input
with at least one token makes the tool search the snapshot for exactly the
split tokens. -/
theorem search_terms_split (snap : SchemaSnapshot) (s : String)
    (f : List Chars → List Chars) :
    ((∀ c ∈ s.data, c = ',' ∨ pyIsSpace c = true) →
      splitTerms s = [] ∧
      search_tables_schema snap s f =
        ⟨[], SearchOutcome.noValidTerms "No valid search terms provided"⟩) ∧
    (splitTerms s ≠ [] →
      (search_tables_schema snap s f).searchedTerms = splitTerms s) := by
  constructor
  · intro h
    have hsp : splitTerms s = [] := by
      apply pySplit_eq_nil
      intro c hc
      obtain ⟨d, hd, hdc⟩ := List.mem_map.mp hc
      rcases h d hd with h1 | h1
      · rw [← hdc, h1]
        simp [pyIsSpace]
      · rw [← hdc]
        by_cases hcomma : d = ','
        · simp [hcomma, pyIsSpace]
        · simpa [hcomma] using h1
    refine ⟨hsp, ?_⟩
    simp [search_tables_schema, hsp]
  · intro h
    have hne : (splitTerms s).isEmpty = false := by
      cases hsp : splitTerms s with
      | nil => exact absurd hsp h
      | cons a l => rfl
    simp only [search_tables_schema, hne, Bool.false_eq_true, if_false]
    split
    · rfl
    · rfl

/-- C10 witness: a comma/whitespace-only input and a two-token input,
evaluated on the demo snapshot. -/
theorem search_terms_split_witness :
    (splitTerms "  , ,  " = [] ∧
      search_tables_schema demoSnap "  , ,  " id =
        ⟨[], SearchOutcome.noValidTerms "No valid search terms provided"⟩) ∧
    (search_tables_schema demoSnap "cust, order" id).searchedTerms =
      splitTerms "cust, order" :=
  ⟨(search_terms_split demoSnap "  , ,  " id).1 (by decide),
    (search_terms_split demoSnap "cust, order" id).2 (by decide)⟩

end OracleMcp
